import Mathlib

/-!
Verification of the error-classification / exit-code logic and the
bounded-retry loop of the azure-sdk-for-js-docs samples.

Embedded source files:
* `src/samples/identity/credentials/src/broker.ts` — two script variants
  sharing one catch-block classifier (variant 1: top-level try/catch that
  calls `process.exit` directly; variant 2: `main` returning a numeric code,
  then `main().then(() => process.exit(0))`).
* `src/unnamed/part_000` — resource-listing script with a module-level
  subscription-id guard and `main().catch`.
* `src/unnamed/part_001` — two bash provisioning scripts with an
  RBAC-propagation retry loop around `az keyvault secret set`.
-/

namespace AzureDocs

/-! ### String containment, mirroring JavaScript `String.prototype.includes` -/

/-- `listStartsWith l p` is true when `p` is an initial segment of `l`. -/
def listStartsWith : List Char → List Char → Bool
  | _, [] => true
  | [], _ :: _ => false
  | c :: cs, p :: ps => c == p && listStartsWith cs ps

/-- `listContainsSub l p` is true when `p` occurs contiguously inside `l`. -/
def listContainsSub : List Char → List Char → Bool
  | [], p => listStartsWith [] p
  | c :: cs, p => listStartsWith (c :: cs) p || listContainsSub cs p

/-- Embedding of JavaScript `s.includes(pat)`. -/
def strIncludes (s pat : String) : Bool :=
  listContainsSub s.toList pat.toList

/-! ### The raw failure value inspected by the catch block

The catch block of `broker.ts` (identical in both variants, lines 50-76 and
121-147) looks at: `error instanceof AuthenticationError`,
`error instanceof Error`, `error.name`, `error.statusCode` (present and
truthy, i.e. a nonzero number), and `error.message`.  `strForm` stands for
`String(error)`, used only when the value is not an `Error`. -/

structure JsError where
  isAuthError : Bool
  isError : Bool
  name : String
  message : String
  statusCode : Option Nat
  strForm : String
deriving DecidableEq

/-- The closed outcome set of the spec's data model. -/
inductive OutcomeCode where
  | success
  | unexpectedError
  | authenticationFailed
  | serviceRequestFailed
  | invalidConfiguration
deriving DecidableEq

/-- Exit-status mapping.  In the source these are the literal numbers used at
each branch: success path exits 0, the unexpected fallthrough exits 1, the
`AuthenticationError` branch exits 2, the `RestError`-with-status branch
exits 3, and the placeholder / invalid-URL branches exit 4. -/
def exitStatusOf : OutcomeCode → Nat
  | .success => 0
  | .unexpectedError => 1
  | .authenticationFailed => 2
  | .serviceRequestFailed => 3
  | .invalidConfiguration => 4

/-- broker.ts line 58 (and 129): message for status code 401. -/
def msg401 : String :=
  "❌ Authentication failed. Please ensure you\x27re signed in to Azure and have the correct permissions."

/-- broker.ts line 60 (and 131): message for status code 403. -/
def msg403 : String :=
  "🚫 Access denied. Please check your Azure Key Vault access policies."

/-- broker.ts line 62 (and 133): message for status code 404. -/
def msg404 : String :=
  "🔍 Secret \x27MySecret\x27 not found in the Key Vault. Please verify the secret name and Key Vault URL."

/-- broker.ts line 69 (and 140): message for the invalid-URL branch. -/
def msgInvalidUrl : String :=
  "🌐 Invalid Key Vault URL. Please update the vaultUri in the code with your actual Key Vault URL."

/-- broker.ts lines 73-74 (and 144-145): the fallthrough reached when no
`process.exit`/`return` happened in the if/else-if chain. -/
def unexpectedOutcome (e : JsError) : OutcomeCode × String :=
  (.unexpectedError,
    "💥 An unexpected error occurred: " ++ (if e.isError then e.message else e.strForm))

/-- Embedding of the catch block of broker.ts (lines 50-76; identical text at
lines 121-147).  Control flow is preserved exactly: when the error is named
`RestError` but `statusCode` is absent or zero (falsy), the chain has already
committed to that `else if` branch, so the `Invalid URL` test is never
reached and execution falls through to the unexpected-error epilogue. -/
def classify (e : JsError) : OutcomeCode × String :=
  if e.isAuthError then
    (.authenticationFailed, "🔐 Authentication failed: " ++ e.message)
  else if e.isError && e.name == "RestError" then
    match e.statusCode with
    | some sc =>
      if sc ≠ 0 then
        (.serviceRequestFailed,
          if sc == 401 then msg401
          else if sc == 403 then msg403
          else if sc == 404 then msg404
          else "⚠️ Azure Key Vault error (" ++ toString sc ++ "): " ++ e.message)
      else unexpectedOutcome e
    | none => unexpectedOutcome e
  else if e.isError && strIncludes e.message "Invalid URL" then
    (.invalidConfiguration, msgInvalidUrl)
  else unexpectedOutcome e

/-! ### The credential scripts around the classifier -/

/-- broker.ts line 28 (and 100): the placeholder default for the vault URL. -/
def placeholderVaultUri : String := "https://<your-key-vault-name>.vault.azure.net/"

/-- broker.ts line 31 (and 103): the placeholder marker searched for with
`includes`. -/
def placeholderMarker : String := "<your-key-vault-name>"

/-- `process.env.AZURE_KEY_VAULT_URL! || default`: an unset variable
(`none`) or an empty string is falsy, so the placeholder default is used. -/
def vaultUriOf : Option String → String
  | some s => if s = "" then placeholderVaultUri else s
  | none => placeholderVaultUri

/-- Variant 1 of broker.ts (lines 25-76): the body of the top-level
try/catch.  `remote` stands for the outcome of everything after the
placeholder check (secrets-client construction plus `getSecret`): `none`
means it succeeded, `some e` means it threw `e`.  The result is the process
exit status paired with whether the remote part was ever attempted. -/
def brokerScript1 (env : Option String) (remote : Option JsError) : Nat × Bool :=
  let vaultUri := vaultUriOf env
  if strIncludes vaultUri placeholderMarker then
    (4, false)
  else
    match remote with
    | none => (0, true)
    | some e => (exitStatusOf (classify e).1, true)

/-- Variant 2 of broker.ts (lines 83-148): `main` returns its numeric code
instead of exiting.  Same structure as variant 1. -/
def brokerMain2 (env : Option String) (remote : Option JsError) : Nat × Bool :=
  let vaultUri := vaultUriOf env
  if strIncludes vaultUri placeholderMarker then
    (4, false)
  else
    match remote with
    | none => (0, true)
    | some e => (exitStatusOf (classify e).1, true)

/-- broker.ts lines 150-152: `main().then(() => { ...; process.exit(0); })`.
The fulfilled handler takes no parameter, so the code `main` resolved with is
discarded and the process always exits 0 on the fulfilled path. -/
def script2ThenExit : Nat → Nat := fun _ => 0

/-- The observable process run of variant 2: exit status (via the `then`
handler) paired with whether the remote part was attempted. -/
def brokerScript2 (env : Option String) (remote : Option JsError) : Nat × Bool :=
  let m := brokerMain2 env remote
  (script2ThenExit m.1, m.2)

/-! ### Lemmas about string containment -/

theorem listStartsWith_nil (l : List Char) : listStartsWith l [] = true := by
  cases l <;> rfl

theorem listStartsWith_refl (l : List Char) : listStartsWith l l = true := by
  induction l with
  | nil => rfl
  | cons c cs ih => simp [listStartsWith, ih]

theorem listStartsWith_append (p t : List Char) :
    listStartsWith (p ++ t) p = true := by
  induction p with
  | nil => exact listStartsWith_nil t
  | cons c cs ih => simp [listStartsWith, ih]

theorem listStartsWith_append_of {l p : List Char} (b : List Char)
    (h : listStartsWith l p = true) : listStartsWith (l ++ b) p = true := by
  induction p generalizing l with
  | nil => exact listStartsWith_nil _
  | cons q qs ih =>
    cases l with
    | nil => simp [listStartsWith] at h
    | cons c cs =>
      simp only [listStartsWith, Bool.and_eq_true] at h
      simp [listStartsWith, h.1, ih h.2]

theorem listContainsSub_of_startsWith {l p : List Char}
    (h : listStartsWith l p = true) : listContainsSub l p = true := by
  cases l with
  | nil => exact h
  | cons c cs => simp [listContainsSub, h]

theorem listContainsSub_nil (l : List Char) : listContainsSub l [] = true := by
  cases l <;> rfl

theorem listContainsSub_self (l : List Char) : listContainsSub l l = true :=
  listContainsSub_of_startsWith (listStartsWith_refl l)

theorem listContainsSub_append_right (a : List Char) {b p : List Char}
    (h : listContainsSub b p = true) : listContainsSub (a ++ b) p = true := by
  induction a with
  | nil => exact h
  | cons c cs ih =>
    cases hb : b with
    | nil =>
      subst hb
      simpa [listContainsSub] using Or.inr ih
    | cons x xs =>
      subst hb
      simp only [List.cons_append, listContainsSub, Bool.or_eq_true]
      exact Or.inr (by simpa using ih)

theorem listContainsSub_append_left {a : List Char} (b : List Char) {p : List Char}
    (h : listContainsSub a p = true) : listContainsSub (a ++ b) p = true := by
  induction a with
  | nil =>
    cases p with
    | nil => exact listContainsSub_nil b
    | cons q qs => simp [listContainsSub, listStartsWith] at h
  | cons c cs ih =>
    simp only [listContainsSub, Bool.or_eq_true] at h
    rcases h with h | h
    · exact listContainsSub_of_startsWith (listStartsWith_append_of b h)
    · simp only [List.cons_append, listContainsSub, Bool.or_eq_true]
      exact Or.inr (ih h)

theorem strToList_append (a b : String) : (a ++ b).toList = a.toList ++ b.toList := rfl

/-- A string contains any of its suffixes: `strIncludes (a ++ m) m = true`. -/
theorem strIncludes_append_self (a m : String) : strIncludes (a ++ m) m = true := by
  show listContainsSub (a ++ m).toList m.toList = true
  rw [strToList_append]
  exact listContainsSub_append_right _ (listContainsSub_self _)

theorem strIncludes_append_left {a : String} (b : String) {p : String}
    (h : strIncludes a p = true) : strIncludes (a ++ b) p = true := by
  show listContainsSub (a ++ b).toList p.toList = true
  rw [strToList_append]
  exact listContainsSub_append_left _ h

theorem strIncludes_append_right (a : String) {b p : String}
    (h : strIncludes b p = true) : strIncludes (a ++ b) p = true := by
  show listContainsSub (a ++ b).toList p.toList = true
  rw [strToList_append]
  exact listContainsSub_append_right _ h

/-! ### Concrete failure values used in the claim theorems -/

/-- A credential-acquisition failure, as thrown by `@azure/identity`. -/
def authFailureExample : JsError :=
  { isAuthError := true, isError := true, name := "AuthenticationError"
    message := "AADSTS70043: refresh token expired", statusCode := none, strForm := "" }

/-- An authentication failure that also carries a 401-like status code. -/
def authWith401 : JsError :=
  { isAuthError := true, isError := true, name := "AuthenticationError"
    message := "interaction required", statusCode := some 401, strForm := "" }

/-- A `RestError`-named failure with an invalid-URL message but no status code. -/
def restNoStatusInvalidUrl : JsError :=
  { isAuthError := false, isError := true, name := "RestError"
    message := "Invalid URL", statusCode := none, strForm := "" }

/-- A plain `TypeError` whose message indicates a malformed endpoint address. -/
def invalidUrlTypeError : JsError :=
  { isAuthError := false, isError := true, name := "TypeError"
    message := "Invalid URL: not-a-url", statusCode := none, strForm := "" }

/-- A failure carrying a numeric status code but not named `RestError`. -/
def statusNotRestError : JsError :=
  { isAuthError := false, isError := true, name := "HttpError"
    message := "request failed", statusCode := some 403, strForm := "" }

/-- A `RestError` with a status code outside the 401/403/404 specific cases. -/
def restError418 : JsError :=
  { isAuthError := false, isError := true, name := "RestError"
    message := "I am a teapot", statusCode := some 418, strForm := "" }

theorem strIncludes_refl (s : String) : strIncludes s s = true :=
  listContainsSub_self _

/-! ### Claim theorems about the classifier and the credential scripts -/

/-- Claim C1 (code bug): the second credential script computes the Outcome
Code — here a run whose caught failure classifies as AuthenticationFailed, so
`main` resolves with status 2 — but `main().then(() => process.exit(0))`
discards the resolved code and the process exits 0 instead of 2.  The first
variant does exit with the computed status at the same input, and the sample
README documents exit code 2 for authentication failures. -/
theorem c1_then_handler_discards_outcome :
    (brokerMain2 (some "https://contoso.vault.azure.net/") (some authFailureExample)).1
        = exitStatusOf OutcomeCode.authenticationFailed
    ∧ exitStatusOf OutcomeCode.authenticationFailed = 2
    ∧ (brokerScript1 (some "https://contoso.vault.azure.net/") (some authFailureExample)).1 = 2
    ∧ (brokerScript2 (some "https://contoso.vault.azure.net/") (some authFailureExample)).1 = 0 :=
  ⟨rfl, rfl, rfl, rfl⟩

/-- Claim C2: any failure marked as an authentication failure classifies as
AuthenticationFailed with a message containing the underlying reason text,
regardless of any co-present status code — the ladder checks
`error instanceof AuthenticationError` first. -/
theorem c2_authentication_first (e : JsError) (h : e.isAuthError = true) :
    (classify e).1 = OutcomeCode.authenticationFailed
    ∧ strIncludes (classify e).2 e.message = true := by
  have hc : classify e = (.authenticationFailed, "🔐 Authentication failed: " ++ e.message) := by
    simp [classify, h]
  rw [hc]
  exact ⟨rfl, strIncludes_append_self _ _⟩

/-- Witness for C2: an authentication failure that also carries status 401
still classifies as AuthenticationFailed. -/
theorem c2_authentication_first_witness :
    authWith401.isAuthError = true
    ∧ authWith401.statusCode = some 401
    ∧ ((classify authWith401).1 = OutcomeCode.authenticationFailed
        ∧ strIncludes (classify authWith401).2 authWith401.message = true) :=
  ⟨rfl, rfl, c2_authentication_first authWith401 rfl⟩

/-- Counterexample to claim C3: a failure named `RestError` with no status
code whose message is exactly an invalid-URL message classifies as
UnexpectedError, not InvalidConfiguration — the `else if` chain already
committed to the RestError branch, so the Invalid URL test is never reached
and control falls through to the unexpected-error epilogue. -/
theorem c3_rest_error_counterexample :
    restNoStatusInvalidUrl.isAuthError = false
    ∧ restNoStatusInvalidUrl.name = "RestError"
    ∧ restNoStatusInvalidUrl.statusCode = none
    ∧ strIncludes restNoStatusInvalidUrl.message "Invalid URL" = true
    ∧ (classify restNoStatusInvalidUrl).1 = OutcomeCode.unexpectedError
    ∧ (classify restNoStatusInvalidUrl).1 ≠ OutcomeCode.invalidConfiguration := by
  decide

/-- Claim C3 as amended: a failure that is not an authentication failure, is
an Error instance *not named RestError*, and whose message indicates a
malformed endpoint address classifies as InvalidConfiguration; a
RestError-named failure without a truthy status code instead falls through to
UnexpectedError (see the counterexample). -/
theorem c3_invalid_url_amended (e : JsError) (h1 : e.isAuthError = false)
    (h2 : e.isError = true) (h3 : e.name ≠ "RestError")
    (h4 : strIncludes e.message "Invalid URL" = true) :
    classify e = (OutcomeCode.invalidConfiguration, msgInvalidUrl) := by
  have hb : (e.name == "RestError") = false := by simp [h3]
  simp [classify, h1, h2, hb, h4]

/-- Witness for the amended C3: a plain `TypeError` with an invalid-URL
message classifies as InvalidConfiguration. -/
theorem c3_invalid_url_amended_witness :
    invalidUrlTypeError.isAuthError = false
    ∧ invalidUrlTypeError.isError = true
    ∧ invalidUrlTypeError.name ≠ "RestError"
    ∧ strIncludes invalidUrlTypeError.message "Invalid URL" = true
    ∧ classify invalidUrlTypeError = (OutcomeCode.invalidConfiguration, msgInvalidUrl) :=
  ⟨rfl, rfl, by decide, by decide,
    c3_invalid_url_amended invalidUrlTypeError rfl rfl (by decide) (by decide)⟩

/-- Counterexample to claim C4: a failure carrying numeric status code 403
and no authentication-failure marker, but whose `name` is not `RestError`,
is not classified by its status code — the code inspects `statusCode` only
inside the `error.name === "RestError"` branch.  This input's message also
lacks an invalid-URL marker, so it falls through to UnexpectedError rather
than the claimed ServiceRequestFailed. -/
theorem c4_status_code_counterexample :
    statusNotRestError.statusCode = some 403
    ∧ statusNotRestError.isAuthError = false
    ∧ statusNotRestError.name ≠ "RestError"
    ∧ strIncludes statusNotRestError.message "Invalid URL" = false
    ∧ (classify statusNotRestError).1 = OutcomeCode.unexpectedError
    ∧ (classify statusNotRestError).1 ≠ OutcomeCode.serviceRequestFailed := by
  decide

/-- Claim C4 as amended: a failure that is an Error instance *named
`RestError`*, carries a truthy (nonzero) numeric status code, and has no
authentication-failure marker classifies as ServiceRequestFailed, with the
specific messages for 401/403/404 and, for any other code, a generic service
message embedding the status code and the failure's own text. -/
theorem c4_rest_error_status_amended (e : JsError) (sc : Nat)
    (h1 : e.isAuthError = false) (h2 : e.isError = true) (h3 : e.name = "RestError")
    (h4 : e.statusCode = some sc) (h5 : sc ≠ 0) :
    (classify e).1 = OutcomeCode.serviceRequestFailed
    ∧ (sc = 401 → (classify e).2 = msg401)
    ∧ (sc = 403 → (classify e).2 = msg403)
    ∧ (sc = 404 → (classify e).2 = msg404)
    ∧ (sc ≠ 401 → sc ≠ 403 → sc ≠ 404 →
        strIncludes (classify e).2 (toString sc) = true
        ∧ strIncludes (classify e).2 e.message = true) := by
  have hb : (e.name == "RestError") = true := by simp [h3]
  have hc : classify e =
      (.serviceRequestFailed,
        if sc == 401 then msg401
        else if sc == 403 then msg403
        else if sc == 404 then msg404
        else "⚠️ Azure Key Vault error (" ++ toString sc ++ "): " ++ e.message) := by
    simp [classify, h1, h2, hb, h4, h5]
  rw [hc]
  refine ⟨rfl, ?_, ?_, ?_, ?_⟩
  · rintro rfl; simp
  · rintro rfl; simp
  · rintro rfl; simp
  · intro hn1 hn2 hn3
    have e1 : (sc == 401) = false := by simp [hn1]
    have e2 : (sc == 403) = false := by simp [hn2]
    have e3 : (sc == 404) = false := by simp [hn3]
    simp only [e1, e2, e3, Bool.false_eq_true, if_false]
    constructor
    · exact strIncludes_append_left _ (strIncludes_append_left _ (strIncludes_append_self _ _))
    · exact strIncludes_append_right _ (strIncludes_refl _)

/-- Witness for the amended C4: a `RestError` with status 418 classifies as
ServiceRequestFailed with the generic message embedding the code and text. -/
theorem c4_rest_error_status_amended_witness :
    restError418.statusCode = some 418
    ∧ (418 : Nat) ≠ 0
    ∧ (classify restError418).1 = OutcomeCode.serviceRequestFailed
    ∧ strIncludes (classify restError418).2 (toString 418) = true
    ∧ strIncludes (classify restError418).2 restError418.message = true := by
  have h := c4_rest_error_status_amended restError418 418 rfl rfl rfl rfl (by decide)
  have hg := h.2.2.2.2 (by decide) (by decide) (by decide)
  exact ⟨rfl, by decide, h.1, hg.1, hg.2⟩

/-- Claim C9: when the endpoint value equals the literal placeholder string —
in particular when the environment variable is unset or empty, which falls
back to the placeholder default — both credential scripts yield
InvalidConfiguration (status 4) immediately and never attempt the remote
part (secrets-client construction and secret retrieval). -/
theorem c9_placeholder_short_circuit (env : Option String) (remote : Option JsError)
    (h : vaultUriOf env = placeholderVaultUri) :
    brokerScript1 env remote = (exitStatusOf OutcomeCode.invalidConfiguration, false)
    ∧ brokerMain2 env remote = (exitStatusOf OutcomeCode.invalidConfiguration, false) := by
  have hm : strIncludes (vaultUriOf env) placeholderMarker = true := by
    rw [h]; decide
  constructor <;> simp [brokerScript1, brokerMain2, hm, exitStatusOf]

/-- Witness for C9: with the environment variable unset, the fallback is the
placeholder and both scripts short-circuit to status 4 with no remote call. -/
theorem c9_placeholder_short_circuit_witness :
    vaultUriOf none = placeholderVaultUri
    ∧ brokerScript1 none (some authFailureExample) = (4, false)
    ∧ brokerMain2 none (some authFailureExample) = (4, false) :=
  ⟨rfl, c9_placeholder_short_circuit none (some authFailureExample) rfl⟩

/-! ### The RBAC-propagation retry loop (part_001, lines 239-269 and 477-506)

The bash loop, generalized over the numeric parameters exactly as the spec's
Retry Runner contract does (the script instantiates base=10, inc=5, cap=30,
max=12):

    while [ RETRY_COUNT -lt MAX_RETRIES ]; do
      if [ RETRY_COUNT -gt 0 ]; then
        sleep RETRY_DELAY
        RETRY_DELAY=$((RETRY_DELAY < cap ? RETRY_DELAY + inc : cap))
      fi
      if op; then break; else RETRY_COUNT=$((RETRY_COUNT + 1)); fi
    done

`op n` is the result of the n-th invocation of `az keyvault secret set`
(0-indexed). -/

/-- The `RETRY_DELAY` update on lines 248 / 486. -/
def nextDelay (cap inc d : Nat) : Nat := if d < cap then d + inc else cap

/-- The successive values `RETRY_DELAY` takes: the increment-then-cap
sequence starting at the base delay. -/
def delaySeq (base cap inc : Nat) : Nat → Nat
  | 0 => base
  | n + 1 => nextDelay cap inc (delaySeq base cap inc n)

/-- Observable result of one run of the retry loop: how many times the
operation was invoked, the delays slept (in order), and whether the loop
ended by `break` (success). -/
structure RetryResult where
  attempts : Nat
  sleeps : List Nat
  success : Bool
deriving DecidableEq

/-- One loop iteration at retry count `c`, with `fuel` iterations of the
`while` guard left (`fuel = MAX_RETRIES - RETRY_COUNT`), current delay `d`
and the delays slept so far accumulated in reverse in `acc`. -/
def retryAux (op : Nat → Bool) (cap inc : Nat) : Nat → Nat → Nat → List Nat → RetryResult
  | 0, c, _, acc => ⟨c, acc.reverse, false⟩
  | fuel + 1, c, d, acc =>
    if op c then
      ⟨c + 1, (if 0 < c then d :: acc else acc).reverse, true⟩
    else
      retryAux op cap inc fuel (c + 1)
        (if 0 < c then nextDelay cap inc d else d)
        (if 0 < c then d :: acc else acc)

/-- The whole loop: `RETRY_COUNT=0`, `RETRY_DELAY=base`. -/
def retryRunner (base inc cap maxRetries : Nat) (op : Nat → Bool) : RetryResult :=
  retryAux op cap inc maxRetries 0 base []

/-! ### The provisioning scripts around the retry loop -/

/-- Observable tail of a provisioning script run (everything from the
secret-creation step onward). -/
structure ScriptRun where
  secretAttempts : Nat
  secretSucceeded : Bool
  exhaustionWarned : Bool
  skipWarned : Bool
  summaryPrinted : Bool
  configWritten : Bool
deriving DecidableEq

/-- part_001, first script, lines 236-319: the role-assignment failure only
prints an error (lines 229-233) and does not gate the loop; the exhaustion
warning prints when `RETRY_COUNT` reaches `MAX_RETRIES` (lines 261-267); the
resource summary (lines 271-296) and the configuration file write (lines
298-318) follow unconditionally — there is no `exit` after line 239, and the
failing `az` invocation sits in an `if` condition, so `set -e` never
triggers. -/
def script1Tail (op : Nat → Bool) (maxRetries base inc cap : Nat) : ScriptRun :=
  let r := retryRunner base inc cap maxRetries op
  { secretAttempts := r.attempts
    secretSucceeded := r.success
    exhaustionWarned := !r.success && decide (0 < maxRetries)
    skipWarned := false
    summaryPrinted := true
    configWritten := true }

/-- part_001, second script, lines 457-561: the retry loop runs only when
`RBAC_SUCCESS=true` (line 473); otherwise the manual-remediation warnings
print (lines 507-512) and the loop is skipped entirely; the summary (lines
514-539) and the configuration file write (lines 541-559) follow
unconditionally in both branches. -/
def script2Tail (rbacOk : Bool) (op : Nat → Bool) (maxRetries base inc cap : Nat) : ScriptRun :=
  if rbacOk then
    let r := retryRunner base inc cap maxRetries op
    { secretAttempts := r.attempts
      secretSucceeded := r.success
      exhaustionWarned := !r.success && decide (0 < maxRetries)
      skipWarned := false
      summaryPrinted := true
      configWritten := true }
  else
    { secretAttempts := 0
      secretSucceeded := false
      exhaustionWarned := false
      skipWarned := true
      summaryPrinted := true
      configWritten := true }

/-! ### The resource-listing script (part_000) -/

/-- JavaScript truthiness of `process.env.AZURE_SUBSCRIPTION_ID!`: falsy when
the variable is unset or the empty string (part_000 line 5). -/
def truthyEnv : Option String → Bool
  | none => false
  | some s => !(s == "")

/-- Observable failure handling of one process run of part_000. -/
structure Part0Run where
  uncaughtFault : Bool
  boundaryCaught : Bool
deriving DecidableEq

/-- part_000: if the subscription id is falsy, the guard throws at module
top level (lines 4-7), before `main().catch` (lines 24-26) is ever reached —
no handler exists there, so the throw escapes as an unhandled fault.
Otherwise `main()` runs and a failure inside it is caught by the `.catch`
boundary handler. -/
def part0Script (subscriptionId : Option String) (mainFails : Bool) : Part0Run :=
  if truthyEnv subscriptionId then
    { uncaughtFault := false, boundaryCaught := mainFails }
  else
    { uncaughtFault := true, boundaryCaught := false }

/-! ### Lemmas about the retry loop -/

/-- Under the saturation invariant (delay at most the cap, and the remaining
distance to the cap divisible by the increment), each update keeps both. -/
theorem delaySeq_le_and_dvd (base inc cap : Nat) (hb : base ≤ cap)
    (hdvd : inc ∣ cap - base) (n : Nat) :
    delaySeq base cap inc n ≤ cap ∧ inc ∣ cap - delaySeq base cap inc n := by
  induction n with
  | zero => exact ⟨hb, hdvd⟩
  | succ n ih =>
    obtain ⟨hle, hd⟩ := ih
    by_cases hlt : delaySeq base cap inc n < cap
    · have hpos : 0 < cap - delaySeq base cap inc n := by omega
      have hinc : inc ≤ cap - delaySeq base cap inc n := Nat.le_of_dvd hpos hd
      have h1 : delaySeq base cap inc (n + 1) = delaySeq base cap inc n + inc := by
        simp [delaySeq, nextDelay, hlt]
      constructor
      · omega
      · rw [h1, show cap - (delaySeq base cap inc n + inc)
            = cap - delaySeq base cap inc n - inc by omega]
        exact Nat.dvd_sub' hd dvd_rfl
    · have h1 : delaySeq base cap inc (n + 1) = cap := by
        simp [delaySeq, nextDelay, hlt]
      constructor
      · omega
      · rw [h1]
        simp

/-- An operation that fails on every attempt drives the loop to exhaustion:
the count advances by the whole remaining fuel and the loop never breaks. -/
theorem retryAux_always_fails (cap inc : Nat) :
    ∀ fuel c d acc,
      (retryAux (fun _ => false) cap inc fuel c d acc).attempts = c + fuel
      ∧ (retryAux (fun _ => false) cap inc fuel c d acc).success = false := by
  intro fuel
  induction fuel with
  | zero => intro c d acc; exact ⟨rfl, rfl⟩
  | succ fuel ih =>
    intro c d acc
    have hstep : retryAux (fun _ => false) cap inc (fuel + 1) c d acc
        = retryAux (fun _ => false) cap inc fuel (c + 1)
            (if 0 < c then nextDelay cap inc d else d)
            (if 0 < c then d :: acc else acc) := by
      simp [retryAux]
    rw [hstep]
    obtain ⟨h1, h2⟩ := ih (c + 1) (if 0 < c then nextDelay cap inc d else d)
      (if 0 < c then d :: acc else acc)
    exact ⟨by omega, h2⟩

/-- Run of the loop against an operation failing exactly on the first `k`
attempts, entered at count `c` with the delay and accumulated sleeps the loop
produces at that count: it ends in success after attempt `k + 1`, having
slept exactly the first `k` delays of the sequence. -/
theorem retryAux_fails_then (base inc cap k : Nat) :
    ∀ fuel c, c ≤ k → k < c + fuel →
      retryAux (fun i => decide (k ≤ i)) cap inc fuel c
          (delaySeq base cap inc (c - 1))
          (((List.range (c - 1)).map (delaySeq base cap inc)).reverse)
        = ⟨k + 1, (List.range k).map (delaySeq base cap inc), true⟩ := by
  intro fuel
  induction fuel with
  | zero => intro c h1 h2; omega
  | succ fuel ih =>
    intro c h1 h2
    by_cases hck : c = k
    · have hop : (decide (k ≤ c)) = true := by simp [hck]
      simp only [retryAux, hop, if_true]
      by_cases hc : 0 < c
      · obtain ⟨m, rfl⟩ : ∃ m, c = m + 1 := ⟨c - 1, by omega⟩
        simp only [hc, if_true, Nat.add_sub_cancel, List.reverse_cons, List.reverse_reverse]
        rw [← hck, List.range_succ]
        simp
      · have hc0 : c = 0 := by omega
        have hk0 : k = 0 := by omega
        subst hc0
        subst hk0
        rfl
    · have hck' : c < k := by omega
      have hop : (decide (k ≤ c)) = false := by simp; omega
      simp only [retryAux, hop, Bool.false_eq_true, if_false]
      have harg1 : (if 0 < c then nextDelay cap inc (delaySeq base cap inc (c - 1))
            else delaySeq base cap inc (c - 1)) = delaySeq base cap inc ((c + 1) - 1) := by
        by_cases hc : 0 < c
        · have hcr : c - 1 + 1 = c := by omega
          simp only [hc, if_true, Nat.add_sub_cancel]
          calc nextDelay cap inc (delaySeq base cap inc (c - 1))
              = delaySeq base cap inc ((c - 1) + 1) := rfl
            _ = delaySeq base cap inc c := by rw [hcr]
        · have hc0 : c = 0 := by omega
          subst hc0
          simp
      have harg2 : (if 0 < c then delaySeq base cap inc (c - 1)
              :: ((List.range (c - 1)).map (delaySeq base cap inc)).reverse
            else ((List.range (c - 1)).map (delaySeq base cap inc)).reverse)
          = ((List.range ((c + 1) - 1)).map (delaySeq base cap inc)).reverse := by
        by_cases hc : 0 < c
        · have hcr : c = (c - 1) + 1 := by omega
          simp only [hc, if_true, Nat.add_sub_cancel]
          conv_rhs => rw [hcr, List.range_succ]
          simp
        · have hc0 : c = 0 := by omega
          subst hc0
          simp
      rw [harg1, harg2]
      exact ih (c + 1) (by omega) (by omega)

/-- The sum of a mapped range as a finite sum. -/
theorem list_sum_range_map (f : Nat → Nat) (k : Nat) :
    ((List.range k).map f).sum = ∑ i ∈ Finset.range k, f i := by
  induction k with
  | zero => rfl
  | succ k ih =>
    rw [List.range_succ, List.map_append, List.sum_append, Finset.sum_range_succ, ih]
    simp

/-! ### Claim theorems about the retry loop and the provisioning scripts -/

/-- Counterexample to claim C5: with base delay 10, increment 5 and cap 12 —
parameters the Retry Runner contract accepts — the delay after the first
increase-by-increment update is 15, which exceeds the cap, and the next
update brings it back down to 12, so the sequence is not monotonically
non-decreasing either; an actual exhausting run sleeps 10, 15, 12, 12.  The
update `RETRY_DELAY < cap ? RETRY_DELAY + inc : cap` clamps only on the
*next* update, so it saturates at the cap only when the increments from the
base land exactly on the cap (as they do for the script's 10/5/30). -/
theorem c5_overshoot_counterexample :
    delaySeq 10 12 5 1 = 15
    ∧ ¬ delaySeq 10 12 5 1 ≤ 12
    ∧ delaySeq 10 12 5 2 = 12
    ∧ ¬ delaySeq 10 12 5 1 ≤ delaySeq 10 12 5 2
    ∧ (retryRunner 10 5 12 5 (fun _ => false)).sleeps = [10, 15, 12, 12] := by
  decide

/-- Claim C5 as amended: for parameters where the increment divides the
distance from base delay to cap (in particular the script's base 10,
increment 5, cap 30), the delay is monotonically non-decreasing, never
exceeds the cap, and once it reaches the cap it stays there. -/
theorem c5_delay_saturation_amended (base inc cap : Nat) (hb : base ≤ cap)
    (hdvd : inc ∣ cap - base) (n : Nat) :
    delaySeq base cap inc n ≤ cap
    ∧ delaySeq base cap inc n ≤ delaySeq base cap inc (n + 1)
    ∧ (delaySeq base cap inc n = cap → delaySeq base cap inc (n + 1) = cap) := by
  obtain ⟨hle, hd⟩ := delaySeq_le_and_dvd base inc cap hb hdvd n
  refine ⟨hle, ?_, ?_⟩
  · by_cases hlt : delaySeq base cap inc n < cap
    · have h1 : delaySeq base cap inc (n + 1) = delaySeq base cap inc n + inc := by
        simp [delaySeq, nextDelay, hlt]
      omega
    · have h1 : delaySeq base cap inc (n + 1) = cap := by
        simp [delaySeq, nextDelay, hlt]
      omega
  · intro hcap
    have hlt : ¬ delaySeq base cap inc n < cap := by omega
    simp [delaySeq, nextDelay, hlt]

/-- Witness for the amended C5 at the script's parameters (10/5/30), where
the sequence reaches the cap at index 4. -/
theorem c5_delay_saturation_amended_witness :
    (10 : Nat) ≤ 30 ∧ (5 : Nat) ∣ 30 - 10
    ∧ (delaySeq 10 30 5 4 ≤ 30
        ∧ delaySeq 10 30 5 4 ≤ delaySeq 10 30 5 5
        ∧ (delaySeq 10 30 5 4 = 30 → delaySeq 10 30 5 5 = 30)) :=
  ⟨by decide, by decide, c5_delay_saturation_amended 10 5 30 (by decide) (by decide) 4⟩

/-- Claim C6: against an operation that fails exactly `k` times and then
succeeds, with `k` below the retry budget, the loop returns success after
exactly `k + 1` attempts, sleeps exactly the first `k` delays of the
increment-then-cap sequence (so no delay after the success), and the total
elapsed delay is the sum of those first `k` terms.  At the script's
parameters with `k = 3` this is 4 attempts with sleeps 10, 15, 20 (see the
witness). -/
theorem c6_fails_then_succeeds (base inc cap maxRetries k : Nat) (h : k < maxRetries) :
    retryRunner base inc cap maxRetries (fun i => decide (k ≤ i))
        = ⟨k + 1, (List.range k).map (delaySeq base cap inc), true⟩
    ∧ ((List.range k).map (delaySeq base cap inc)).sum
        = ∑ i ∈ Finset.range k, delaySeq base cap inc i := by
  constructor
  · exact retryAux_fails_then base inc cap k maxRetries 0 (Nat.zero_le k) (by omega)
  · exact list_sum_range_map _ k

/-- Witness for C6: the spec's scenario — base 10, increment 5, cap 30, max
attempts 12, operation failing 3 times then succeeding — gives 4 attempts,
sleeps 10, 15, 20 (summing to 45) and success. -/
theorem c6_fails_then_succeeds_witness :
    3 < 12
    ∧ retryRunner 10 5 30 12 (fun i => decide (3 ≤ i)) = ⟨4, [10, 15, 20], true⟩
    ∧ [10, 15, 20].sum = 45 := by
  refine ⟨by decide, ?_, by decide⟩
  exact ((c6_fails_then_succeeds 10 5 30 12 3 (by decide)).1).trans (by decide)

/-- Claim C7: against an operation that fails on every attempt, the first
provisioning script's loop makes exactly `N` attempts (`N` = max attempts),
reports exhaustion as a warning, does not succeed, and the script continues
to the resource summary and the configuration-file write rather than
terminating as a process failure. -/
theorem c7_exhaustion_nonfatal (base inc cap N : Nat) (hN : 0 < N) :
    (script1Tail (fun _ => false) N base inc cap).secretAttempts = N
    ∧ (script1Tail (fun _ => false) N base inc cap).secretSucceeded = false
    ∧ (script1Tail (fun _ => false) N base inc cap).exhaustionWarned = true
    ∧ (script1Tail (fun _ => false) N base inc cap).summaryPrinted = true
    ∧ (script1Tail (fun _ => false) N base inc cap).configWritten = true := by
  obtain ⟨h1, h2⟩ := retryAux_always_fails cap inc N 0 base []
  refine ⟨?_, h2, ?_, rfl, rfl⟩
  · show (retryAux (fun _ => false) cap inc N 0 base []).attempts = N
    omega
  · show (!(retryRunner base inc cap N (fun _ => false)).success && decide (0 < N)) = true
    rw [show (retryRunner base inc cap N (fun _ => false)).success = false from h2]
    simp [hN]

/-- Witness for C7 at the script's parameters: max attempts 12. -/
theorem c7_exhaustion_nonfatal_witness :
    0 < 12
    ∧ ((script1Tail (fun _ => false) 12 10 5 30).secretAttempts = 12
        ∧ (script1Tail (fun _ => false) 12 10 5 30).secretSucceeded = false
        ∧ (script1Tail (fun _ => false) 12 10 5 30).exhaustionWarned = true
        ∧ (script1Tail (fun _ => false) 12 10 5 30).summaryPrinted = true
        ∧ (script1Tail (fun _ => false) 12 10 5 30).configWritten = true) :=
  ⟨by decide, c7_exhaustion_nonfatal 10 5 30 12 (by decide)⟩

/-- Counterexample to claim C8: with the subscription-id variable unset, the
resource-listing script's guard throws at module top level, before the
`main().catch` boundary exists — the failure escapes as an unhandled fault
and the boundary handler never runs. -/
theorem c8_unset_subscription_counterexample :
    truthyEnv none = false
    ∧ (part0Script none false).uncaughtFault = true
    ∧ (part0Script none false).boundaryCaught = false := by
  decide

/-- Claim C8 as amended: failures raised inside `main` are caught at the
outermost boundary, but the resource-listing script's subscription-id guard
is outside that boundary: only when the environment variable is truthy does
every failure stay behind the `main().catch` handler. -/
theorem c8_boundary_amended (subscriptionId : Option String) (mainFails : Bool)
    (h : truthyEnv subscriptionId = true) :
    (part0Script subscriptionId mainFails).uncaughtFault = false
    ∧ (part0Script subscriptionId mainFails).boundaryCaught = mainFails := by
  simp [part0Script, h]

/-- Witness for the amended C8: with the variable set, a failing `main` is
caught at the boundary and nothing escapes. -/
theorem c8_boundary_amended_witness :
    truthyEnv (some "subscription-id") = true
    ∧ (part0Script (some "subscription-id") true).uncaughtFault = false
    ∧ (part0Script (some "subscription-id") true).boundaryCaught = true :=
  ⟨by decide, c8_boundary_amended (some "subscription-id") true (by decide)⟩

/-- Claim C10: in the second provisioning script, when the role-assignment
command fails (`RBAC_SUCCESS=false`), the secret-write retry loop is skipped
entirely — zero secret-write attempts, only the manual-remediation warnings —
and the script still prints the resource summary and writes the
configuration file. -/
theorem c10_rbac_failure_skips_loop (op : Nat → Bool) (maxRetries base inc cap : Nat) :
    script2Tail false op maxRetries base inc cap
      = { secretAttempts := 0, secretSucceeded := false, exhaustionWarned := false,
          skipWarned := true, summaryPrinted := true, configWritten := true } :=
  rfl

end AzureDocs
